import Mathlib

/-!
Shallow embedding of `extension/android/jni/jni_layer.cpp`: the JNI bridge
between managed (Java) objects and the native ExecuTorch runtime.

Modelling conventions:
* JNI machine integers (`jint`, `jlong`, C++ `int`, `int64_t`) are modelled
  as `Int`.  The one place the source narrows (the 32-bit `numel`
  accumulator in `JEValueToTensorImpl`) would overflow as C++ signed-integer
  UB; the embedding uses exact integers.
* `jdouble`/`jfloat` are modelled as `Rat` (exact arithmetic); every
  numeric fact proved below is exactly representable, so the model agrees
  with the binary floating-point evaluation up to the claims' tolerance.
* Functions that can throw a Java exception return `Except JniError _`,
  where the `JniError` constructor carries exactly the data that the
  thrown message formats (method name, numeric status, type codes, counts).
* The scalar-type mapping tables (`java_dtype_to_scalar_type`,
  `scalar_type_to_java_dtype`) come from `jni_layer_constants.h`, which is
  not part of the sources; conversion functions therefore take the mapping
  as an explicit argument, and theorems quantify over it wherever possible.
* The native `Module::execute` dispatch and `Runner::generate` live outside
  this file; they are passed in as opaque function arguments.
-/

namespace JniLayer

/-- Native scalar-type identifier (the `exec_aten::ScalarType` enum value). -/
abbrev ScalarType := Int

/-- Modelled from the spec: the managed-side Tensor object
(`org/pytorch/executorch/Tensor`, not under the sources) as read by the JNI
layer: a dtype code (`dtypeJniCode()`), a shape (`shape` field, array of
`jlong`), and a direct buffer with a declared capacity
(`GetDirectBufferCapacity`) and a data address (`GetDirectBufferAddress`). -/
structure JTensor where
  dtypeJniCode : Int
  shape : List Int
  bufferCapacity : Int
  bufferAddress : Nat
deriving DecidableEq, Repr

/-- Placeholder tensor payload for managed EValues of non-tensor kind. -/
def defaultJTensor : JTensor := ⟨0, [], 0, 0⟩

/-- Modelled from the spec: the managed-side EValue object
(`org/pytorch/executorch/EValue`, not under the sources): "a plain object
holding a type code plus one field per possible payload type".  The JNI
layer reads the `mTypeCode` field directly; payloads are reached through
accessors. -/
structure JEValue where
  mTypeCode : Int
  tensorPayload : JTensor
  intPayload : Int
  doublePayload : Rat
  boolPayload : Bool
  stringPayload : String
deriving DecidableEq, Repr

/-- `JEValue::kTypeCodeTensor`. -/
def kTypeCodeTensor : Int := 1

/-- `JEValue::kTypeCodeString`. -/
def kTypeCodeString : Int := 2

/-- `JEValue::kTypeCodeDouble`. -/
def kTypeCodeDouble : Int := 3

/-- `JEValue::kTypeCodeInt`. -/
def kTypeCodeInt : Int := 4

/-- `JEValue::kTypeCodeBool`. -/
def kTypeCodeBool : Int := 5

/-- Native tensor view handed to / received from the runtime
(`ManagedTensor(data, shape_vec, scalar_type)` on the way in,
`exec_aten::Tensor` on the way out): data address, shape, scalar type. -/
structure NativeTensor where
  dataAddress : Nat
  shape : List Int
  scalarType : ScalarType
deriving DecidableEq, Repr

/-- Native tagged execution value (`torch::executor::EValue`).  The tags the
JNI layer inspects (`isTensor`, `isInt`, `isDouble`, `isBool`, `isString`)
are constructors; every other tag is `other tag`, carrying the numeric
`evalue.tag` used in the diagnostic. -/
inductive EValue where
  | tensor (t : NativeTensor)
  | int (v : Int)
  | double (v : Rat)
  | bool (b : Bool)
  | str (s : String)
  | other (tag : Int)
deriving DecidableEq, Repr

/-- The Java exceptions the bridge can throw, each constructor carrying the
data its message formats. -/
inductive JniError where
  | unsupportedScalarType (scalarType : Int)
  | unsupportedEValueType (tag : Int)
  | unknownTensorJdtype (jdtype : Int)
  | tensorShapeBufferMismatch (numel : Int) (capacity : Int)
  | unknownEValueTypeCode (typeCode : Int)
  | executionFailed (method : String) (status : Int)
deriving DecidableEq, Repr

/-- Element count of a shape: the source initialises `numel = 1` and
multiplies in every `shapeArr[i]` (rank 0 gives 1).  The source iterates
from the last dimension down; over exact integers the product is the
same in any order. -/
def elemCount : List Int → Int
  | [] => 1
  | d :: rest => d * elemCount rest

/-- `TensorHybrid::newJTensorFromTensor`: look the scalar type up in
`scalar_type_to_java_dtype` (argument `smap`); a miss throws
"scalar type %d is not supported on java side"; otherwise build the managed
tensor wrapper: copied shape, the mapped dtype code, and a non-owning view
of the native buffer (capacity modelled in elements, the unit the
decode-side check compares against). -/
def newJTensorFromTensor (smap : Int → Option Int) (t : NativeTensor) :
    Except JniError JTensor :=
  match smap t.scalarType with
  | none => .error (.unsupportedScalarType t.scalarType)
  | some jdtype => .ok ⟨jdtype, t.shape, elemCount t.shape, t.dataAddress⟩

/-- `JEValue::newJEValueFromEValue`: native → managed encoding.  Each
recognised tag becomes a managed EValue with the matching type code and
payload (`JEValue.from(...)` on the Java side); any other tag throws
"Unsupported EValue type: %d" with the numeric tag. -/
def newJEValueFromEValue (smap : Int → Option Int) :
    EValue → Except JniError JEValue
  | .tensor t =>
    match newJTensorFromTensor smap t with
    | .error e => .error e
    | .ok jt => .ok ⟨kTypeCodeTensor, jt, 0, 0, false, ""⟩
  | .int v => .ok ⟨kTypeCodeInt, defaultJTensor, v, 0, false, ""⟩
  | .double v => .ok ⟨kTypeCodeDouble, defaultJTensor, 0, v, false, ""⟩
  | .bool b => .ok ⟨kTypeCodeBool, defaultJTensor, 0, 0, b, ""⟩
  | .str s => .ok ⟨kTypeCodeString, defaultJTensor, 0, 0, false, s⟩
  | .other tag => .error (.unsupportedEValueType tag)

/-- `JEValue::JEValueToTensorImpl`: managed → native tensor conversion.
In source order: read `mTypeCode` (non-tensor codes fall through to
"Unknown EValue typeCode %d"); read dtype, shape and buffer; compute
`numel`; look the dtype up in `java_dtype_to_scalar_type` (argument
`dmap`), a miss throwing "Unknown Tensor jdtype %d"; compare the buffer
capacity against `numel`, a mismatch throwing the
"Tensor dimensions(elements number:%d inconsistent with buffer
capacity(%d)" error carrying both counts; otherwise return the aliasing
native tensor view. -/
def JEValueToTensorImpl (dmap : Int → Option Int) (j : JEValue) :
    Except JniError NativeTensor :=
  if j.mTypeCode = kTypeCodeTensor then
    let jt := j.tensorPayload
    let numel := elemCount jt.shape
    match dmap jt.dtypeJniCode with
    | none => .error (.unknownTensorJdtype jt.dtypeJniCode)
    | some scalar_type =>
      if jt.bufferCapacity ≠ numel then
        .error (.tensorShapeBufferMismatch numel jt.bufferCapacity)
      else
        .ok ⟨jt.bufferAddress, jt.shape, scalar_type⟩
  else
    .error (.unknownEValueTypeCode j.mTypeCode)

/-- One iteration of the input-decoding loop of
`ExecuTorchJni::execute_method`, returning the (possibly empty) list of
native values appended for this managed input.  Branch order as in the
source: Tensor, Int, Double, Bool; any other code appends nothing.
Note the source reads `jevalue->getFieldValue(typeCodeField)` — the type
code field, not a payload accessor — in the Int, Double and Bool branches
(`int64_t value`, `double value`, `bool value` at jni_layer.cpp:304-311),
and the embedding mirrors that. -/
def convertOne (dmap : Int → Option Int) (j : JEValue) :
    Except JniError (List EValue) :=
  if j.mTypeCode = kTypeCodeTensor then
    match JEValueToTensorImpl dmap j with
    | .error e => .error e
    | .ok t => .ok [EValue.tensor t]
  else if j.mTypeCode = kTypeCodeInt then
    .ok [EValue.int j.mTypeCode]
  else if j.mTypeCode = kTypeCodeDouble then
    .ok [EValue.double (j.mTypeCode : Rat)]
  else if j.mTypeCode = kTypeCodeBool then
    .ok [EValue.bool (j.mTypeCode != 0)]
  else
    .ok []

/-- The full input-decoding loop of `ExecuTorchJni::execute_method`:
decode each managed input in order, accumulating the appended native
values; a thrown conversion error aborts the whole call. -/
def convertInputs (dmap : Int → Option Int) :
    List JEValue → Except JniError (List EValue)
  | [] => .ok []
  | j :: rest =>
    match convertOne dmap j with
    | .error e => .error e
    | .ok vs =>
      match convertInputs dmap rest with
      | .error e => .error e
      | .ok tail => .ok (vs ++ tail)

/-- The output-encoding loop of `ExecuTorchJni::execute_method`: encode
every returned native value in order with `newJEValueFromEValue`. -/
def encodeOutputs (smap : Int → Option Int) :
    List EValue → Except JniError (List JEValue)
  | [] => .ok []
  | v :: rest =>
    match newJEValueFromEValue smap v with
    | .error e => .error e
    | .ok j =>
      match encodeOutputs smap rest with
      | .error e => .error e
      | .ok tail => .ok (j :: tail)

/-- `ExecuTorchJni::execute_method`: decode the managed inputs, invoke the
native module's dispatch (`module_->execute(method, evalues)`, passed in
as the opaque `module_execute`), and on a non-success status throw
"Execution of method %s failed with status 0x%PRIx32" carrying the method
name and the numeric status, returning no outputs; on success encode every
returned value in order. -/
def execute_method (smap dmap : Int → Option Int)
    (module_execute : String → List EValue → Except Int (List EValue))
    (method : String) (jinputs : List JEValue) :
    Except JniError (List JEValue) :=
  match convertInputs dmap jinputs with
  | .error e => .error e
  | .ok evalues =>
    match module_execute method evalues with
    | .error status => .error (.executionFailed method status)
    | .ok outputs => encodeOutputs smap outputs

/-- `ExecuTorchJni::forward`: delegates to `execute_method` with the fixed
method name. -/
def forward (smap dmap : Int → Option Int)
    (module_execute : String → List EValue → Except Int (List EValue))
    (jinputs : List JEValue) : Except JniError (List JEValue) :=
  execute_method smap dmap module_execute ("forward") jinputs

/-- A native method registration entry: the owning class's Java descriptor
and the method name (`makeNativeMethod` under `registerHybrid` registers
against the enclosing class's `kJavaDescriptor`). -/
structure NativeMethod where
  classDescriptor : String
  methodName : String
deriving DecidableEq, Repr

/-- `ExecuTorchJni::kJavaDescriptor`. -/
def NativePeerDescriptor : String := "Lorg/pytorch/executorch/NativePeer;"

/-- `ExecuTorchLlamaJni::kJavaDescriptor`. -/
def LlamaModuleDescriptor : String := "Lorg/pytorch/executorch/LlamaModule;"

/-- `ExecuTorchJni::registerNatives`: registers initHybrid, forward,
execute and loadMethod on the NativePeer class. -/
def ExecuTorchJni_registerNatives : List NativeMethod :=
  [⟨NativePeerDescriptor, "initHybrid"⟩,
   ⟨NativePeerDescriptor, "forward"⟩,
   ⟨NativePeerDescriptor, "execute"⟩,
   ⟨NativePeerDescriptor, "loadMethod"⟩]

/-- `ExecuTorchLlamaJni::registerNatives`: registers initHybrid, generate,
stop and load on the LlamaModule class. -/
def ExecuTorchLlamaJni_registerNatives : List NativeMethod :=
  [⟨LlamaModuleDescriptor, "initHybrid"⟩,
   ⟨LlamaModuleDescriptor, "generate"⟩,
   ⟨LlamaModuleDescriptor, "stop"⟩,
   ⟨LlamaModuleDescriptor, "load"⟩]

/-- `jni_init_function_registry` as populated by static initialisation:
the single call `register_jni_init_function(ExecuTorchJni::registerNatives)`
at jni_layer.cpp:462 is the only registration in the file; each registered
init function is represented by the method list it would register. -/
def jni_init_function_registry : List (List NativeMethod) :=
  [ExecuTorchJni_registerNatives]

/-- `JNI_OnLoad`: drains the init-function registry, so the set of methods
registered with the native-interface runtime is the union of the lists in
`jni_init_function_registry`. -/
def JNI_OnLoad_registered : List NativeMethod :=
  jni_init_function_registry.flatten

/-- Modelled from the spec: `Runner::Stats::SCALING_FACTOR_UNITS_PER_SECOND`
is declared in `runner.h`, which is not under the sources; the spec fixes
the scaling constant as 1000 ("`generated_token_count / (end_ms - start_ms)
× 1000`"). -/
def SCALING_FACTOR_UNITS_PER_SECOND : Int := 1000

/-- The fields of `Runner::Stats` that `onStats` reads (the struct is
declared in `runner.h`, outside the sources; field names as used at
jni_layer.cpp:376-380). -/
structure Stats where
  num_generated_tokens : Int
  prompt_eval_end_ms : Int
  inference_end_ms : Int
deriving DecidableEq, Repr

/-- The tokens-per-second value computed by
`ExecuTorchLlamaCallbackJni::onStats`:
`eval_time = inference_end_ms - prompt_eval_end_ms`;
`tps = num_generated_tokens / eval_time * SCALING_FACTOR_UNITS_PER_SECOND`.
No branch guards a zero `eval_time`; the division is applied
unconditionally (the source divides in IEEE doubles, modelled here in
exact `Rat`, where division by zero yields 0 instead of infinity). -/
def onStats_tps (s : Stats) : Rat :=
  let eval_time : Rat := ((s.inference_end_ms - s.prompt_eval_end_ms : Int) : Rat)
  (s.num_generated_tokens : Rat) / eval_time *
    (SCALING_FACTOR_UNITS_PER_SECOND : Rat)

/-- `ExecuTorchLlamaCallbackJni::onStats`: invokes the managed listener's
`onStats` method with the single derived tokens-per-second value. -/
def ExecuTorchLlamaCallbackJni_onStats {α : Type} (listener_onStats : Rat → α)
    (s : Stats) : α :=
  listener_onStats (onStats_tps s)

/-- `ExecuTorchLlamaJni::generate`: calls `runner_->generate(...)`
(opaque `runner_generate`, returning the runner's status), discards that
status, and returns the literal 0.  The token/stats callback plumbing is
elided; it does not affect the returned value. -/
def ExecuTorchLlamaJni_generate (runner_generate : String → Int)
    (prompt : String) : Int :=
  let _ := runner_generate prompt
  0

/-- `ExecuTorchLlamaJni::load`: returns the runner's status cast to jint. -/
def ExecuTorchLlamaJni_load (runner_load : Int) : Int :=
  runner_load

/-- A concrete scalar-type mapping for witnesses and counterexamples.
Modelled from the spec: the real table (`jni_layer_constants.h`, not under
the sources) is "a fixed bidirectional mapping ... lookup miss is an
error, not a default", i.e. a partial bijection; only its partiality
matters to the facts proved with it (codes 1..8 mapped, all else a miss,
matching e.g. code 99 being unmapped in the real table as well). -/
def exampleDtypeMap : Int → Option Int := fun j =>
  if 1 ≤ j ∧ j ≤ 8 then some j else none

/-- A managed EValue of Int kind holding `v` (`EValue.from(long)`). -/
def jIntManaged (v : Int) : JEValue :=
  ⟨kTypeCodeInt, defaultJTensor, v, 0, false, ""⟩

/-- A managed EValue of Double kind holding `v` (`EValue.from(double)`). -/
def jDoubleManaged (v : Rat) : JEValue :=
  ⟨kTypeCodeDouble, defaultJTensor, 0, v, false, ""⟩

/-- A managed EValue of Bool kind holding `b` (`EValue.from(boolean)`). -/
def jBoolManaged (b : Bool) : JEValue :=
  ⟨kTypeCodeBool, defaultJTensor, 0, 0, b, ""⟩

/-- A managed EValue of String kind holding `s` (`EValue.from(String)`). -/
def jStringManaged (s : String) : JEValue :=
  ⟨kTypeCodeString, defaultJTensor, 0, 0, false, s⟩

/-- A managed EValue of Tensor kind wrapping `t`. -/
def jTensorManaged (t : JTensor) : JEValue :=
  ⟨kTypeCodeTensor, t, 0, 0, false, ""⟩

/-- A managed EValue with an arbitrary (possibly unrecognized) type code. -/
def jUnrecognized (code : Int) : JEValue :=
  ⟨code, defaultJTensor, 0, 0, false, ""⟩

/-- The Llama generate registration entry. -/
def llamaGenerateMethod : NativeMethod := ⟨LlamaModuleDescriptor, "generate"⟩

/-- The Llama stop registration entry. -/
def llamaStopMethod : NativeMethod := ⟨LlamaModuleDescriptor, "stop"⟩

/-- The Llama load registration entry. -/
def llamaLoadMethod : NativeMethod := ⟨LlamaModuleDescriptor, "load"⟩

/-- Helper: a managed input whose type code is none of Tensor, Int, Double
or Bool contributes no native value in the decoding loop (the loop has no
branch for it, so it falls through without appending or throwing). -/
theorem convertOne_skip {dmap : Int → Option Int} {j : JEValue}
    (h1 : j.mTypeCode ≠ kTypeCodeTensor) (h4 : j.mTypeCode ≠ kTypeCodeInt)
    (h3 : j.mTypeCode ≠ kTypeCodeDouble) (h5 : j.mTypeCode ≠ kTypeCodeBool) :
    convertOne dmap j = .ok [] := by
  simp [convertOne, h1, h4, h3, h5]

/-- Helper: dropping an input that contributes no native value leaves the
decoded sequence of the remaining inputs unchanged, in order. -/
theorem convertInputs_skip (dmap : Int → Option Int) (xs ys : List JEValue)
    {v : JEValue} (h : convertOne dmap v = .ok []) :
    convertInputs dmap (xs ++ v :: ys) = convertInputs dmap (xs ++ ys) := by
  induction xs with
  | nil =>
    simp only [List.nil_append, convertInputs, h]
    cases convertInputs dmap ys <;> simp
  | cons x xs ih =>
    simp only [List.cons_append, convertInputs, List.append_eq, ih]

/-- Claim C1: the claim says the Int/Double/Bool branches of
`execute_method`'s input decoding read the managed object's scalar payload
field, so the appended native EValue equals the payload.  The code instead
reads `getFieldValue(typeCodeField)` — the type-code field — in all three
branches (jni_layer.cpp:304, 307, 310): a managed Int with payload 42 is
decoded as native int 4, a Double with payload 5/2 as native double 3.0,
and a Bool with payload false as native bool true (5 ≠ 0). -/
theorem execute_method_scalar_reads_typecode_not_payload
    (dmap : Int → Option Int) :
    convertInputs dmap [jIntManaged 42] = .ok [.int 4] ∧
    convertInputs dmap [jDoubleManaged ((5 : Rat) / 2)] = .ok [.double 3] ∧
    convertInputs dmap [jBoolManaged false] = .ok [.bool true] ∧
    EValue.int 4 ≠ EValue.int 42 ∧
    EValue.double 3 ≠ EValue.double ((5 : Rat) / 2) ∧
    EValue.bool true ≠ EValue.bool false := by
  refine ⟨?_, ?_, ?_, by decide, by norm_num, by decide⟩ <;>
    norm_num [convertInputs, convertOne, jIntManaged, jDoubleManaged,
      jBoolManaged, kTypeCodeTensor, kTypeCodeInt, kTypeCodeDouble,
      kTypeCodeBool]

/-- Claim C1 witness: the theorem applied at the empty dtype mapping. -/
theorem execute_method_scalar_reads_typecode_not_payload_witness :
    convertInputs (fun _ => none) [jIntManaged 42] = .ok [.int 4] :=
  (execute_method_scalar_reads_typecode_not_payload (fun _ => none)).1

/-- Claim C2: the claim says JNI_OnLoad registers every invokable entry
point, in particular the Llama class's generate/stop/load.  The code
pushes only `ExecuTorchJni::registerNatives` into
`jni_init_function_registry` (jni_layer.cpp:462);
`ExecuTorchLlamaJni::registerNatives` is never registered, so none of the
LlamaModule entry points reach the method table at load time. -/
theorem llama_natives_not_registered_at_load :
    JNI_OnLoad_registered = ExecuTorchJni_registerNatives ∧
    llamaGenerateMethod ∈ ExecuTorchLlamaJni_registerNatives ∧
    llamaStopMethod ∈ ExecuTorchLlamaJni_registerNatives ∧
    llamaLoadMethod ∈ ExecuTorchLlamaJni_registerNatives ∧
    llamaGenerateMethod ∉ JNI_OnLoad_registered ∧
    llamaStopMethod ∉ JNI_OnLoad_registered ∧
    llamaLoadMethod ∉ JNI_OnLoad_registered := by
  decide

/-- Claim C3: the claim says `generate` returns the status code produced by
the native runner's generation call.  The code discards
`runner_->generate`'s status and returns the literal 0
(jni_layer.cpp:428-433), so a failing runner status (here 1) is reported
to the managed caller as 0. -/
theorem generate_returns_zero_ignoring_runner_status :
    (∀ (runner_generate : String → Int) (prompt : String),
        ExecuTorchLlamaJni_generate runner_generate prompt = 0) ∧
    ExecuTorchLlamaJni_generate (fun _ => 1) ("a prompt") = 0 ∧
    (0 : Int) ≠ 1 :=
  ⟨fun _ _ => rfl, rfl, by decide⟩

/-- Claim C4: `onStats` passes the listener exactly
`num_generated_tokens / (inference_end_ms - prompt_eval_end_ms) ×
SCALING_FACTOR_UNITS_PER_SECOND`; for 50 generated tokens over a 2500 ms
window the reported rate is exactly 20; and with a zero elapsed-time
denominator the same unguarded formula is still applied (no special
case). -/
theorem onStats_tokens_per_second :
    (∀ {α : Type} (listener_onStats : Rat → α) (s : Stats),
        ExecuTorchLlamaCallbackJni_onStats listener_onStats s =
          listener_onStats ((s.num_generated_tokens : Rat) /
            ((s.inference_end_ms - s.prompt_eval_end_ms : Int) : Rat) *
            (SCALING_FACTOR_UNITS_PER_SECOND : Rat))) ∧
    onStats_tps ⟨50, 0, 2500⟩ = 20 ∧
    onStats_tps ⟨50, 7, 7⟩ =
      (50 : Rat) / 0 * (SCALING_FACTOR_UNITS_PER_SECOND : Rat) := by
  refine ⟨fun _ _ => rfl, ?_, ?_⟩ <;>
    norm_num [onStats_tps, SCALING_FACTOR_UNITS_PER_SECOND]

/-- Claim C5 counterexample: the claim says every managed tensor whose
shape's element-count product differs from the buffer capacity fails with
the shape/buffer inconsistency error.  For a tensor with unmapped dtype
code 99, shape [2] (2 elements) and capacity 3 — a shape/capacity
mismatch — conversion fails with the unknown-dtype error instead, because
the dtype lookup precedes the capacity check (jni_layer.cpp:214-228). -/
theorem tensor_mismatch_error_preempted_by_unknown_dtype :
    JEValueToTensorImpl exampleDtypeMap (jTensorManaged ⟨99, [2], 3, 0⟩) =
      .error (.unknownTensorJdtype 99) ∧
    elemCount [2] = 2 ∧ (2 : Int) ≠ 3 ∧
    JniError.unknownTensorJdtype 99 ≠ .tensorShapeBufferMismatch 2 3 := by
  refine ⟨rfl, by decide, by decide, by decide⟩

/-- Claim C5 (amended): for every managed tensor whose dtype code has an
entry in the scalar-type mapping and whose shape's element-count product
differs from the declared buffer capacity, conversion fails with the
shape/buffer inconsistency error reporting both counts, and never
produces a native tensor view. -/
theorem tensor_shape_buffer_mismatch_fails (dmap : Int → Option Int)
    (j : JEValue) (st : Int)
    (htc : j.mTypeCode = kTypeCodeTensor)
    (hdtype : dmap j.tensorPayload.dtypeJniCode = some st)
    (hcap : j.tensorPayload.bufferCapacity ≠ elemCount j.tensorPayload.shape) :
    JEValueToTensorImpl dmap j =
      .error (.tensorShapeBufferMismatch (elemCount j.tensorPayload.shape)
        j.tensorPayload.bufferCapacity) := by
  simp [JEValueToTensorImpl, htc, hdtype, hcap]

/-- Claim C5 witness: a mapped dtype (code 1) with shape [2] (2 elements)
against capacity 3 fails with the shape/buffer inconsistency error
carrying both counts. -/
theorem tensor_shape_buffer_mismatch_fails_witness :
    JEValueToTensorImpl exampleDtypeMap (jTensorManaged ⟨1, [2], 3, 0⟩) =
      .error (.tensorShapeBufferMismatch 2 3) := by
  have h := tensor_shape_buffer_mismatch_fails exampleDtypeMap
    (jTensorManaged ⟨1, [2], 3, 0⟩) 1 rfl (by decide) (by decide)
  simpa [jTensorManaged, elemCount] using h

/-- Claim C6: a managed input whose type code is outside the recognized
set {1,2,3,4,5} is silently skipped by `execute_method`'s decoding loop —
no error is raised, no native value is appended — and the native values
decoded from the remaining inputs are unchanged, preserving their
relative order. -/
theorem unrecognized_typecode_silently_skipped (dmap : Int → Option Int)
    (xs ys : List JEValue) (v : JEValue)
    (h1 : v.mTypeCode ≠ kTypeCodeTensor) (_h2 : v.mTypeCode ≠ kTypeCodeString)
    (h3 : v.mTypeCode ≠ kTypeCodeDouble) (h4 : v.mTypeCode ≠ kTypeCodeInt)
    (h5 : v.mTypeCode ≠ kTypeCodeBool) :
    convertInputs dmap (xs ++ v :: ys) = convertInputs dmap (xs ++ ys) :=
  convertInputs_skip dmap xs ys (convertOne_skip h1 h4 h3 h5)

/-- Claim C6 witness: type code 42 between an Int and a Bool input is
skipped; the surrounding inputs decode as if it were absent. -/
theorem unrecognized_typecode_silently_skipped_witness :
    convertInputs exampleDtypeMap
        [jIntManaged 7, jUnrecognized 42, jBoolManaged true] =
      convertInputs exampleDtypeMap [jIntManaged 7, jBoolManaged true] :=
  unrecognized_typecode_silently_skipped exampleDtypeMap
    [jIntManaged 7] [jBoolManaged true] (jUnrecognized 42)
    (by decide) (by decide) (by decide) (by decide) (by decide)

/-- Claim C7: whenever the native module's dispatch returns a non-success
status for a method invocation (an unknown method name included — the
dispatch is quantified over), `execute_method` raises the single
execution-failed error carrying the method name and the numeric status,
and returns zero output values. -/
theorem execute_failure_carries_method_and_status
    (smap dmap : Int → Option Int)
    (module_execute : String → List EValue → Except Int (List EValue))
    (method : String) (jinputs : List JEValue)
    (evalues : List EValue) (status : Int)
    (hconv : convertInputs dmap jinputs = .ok evalues)
    (hexec : module_execute method evalues = .error status) :
    execute_method smap dmap module_execute method jinputs =
      .error (.executionFailed method status) := by
  simp [execute_method, hconv, hexec]

/-- Claim C7 witness: a dispatch that rejects every method (as for a
nonexistent method name) with status 20 yields the execution-failed error
carrying the method name and 20, and no outputs. -/
theorem execute_failure_carries_method_and_status_witness :
    execute_method exampleDtypeMap exampleDtypeMap
        (fun _ _ => Except.error 20) ("nonexistentMethod") [] =
      .error (.executionFailed ("nonexistentMethod") 20) :=
  execute_failure_carries_method_and_status exampleDtypeMap exampleDtypeMap
    (fun _ _ => Except.error 20) ("nonexistentMethod") [] [] 20 rfl rfl

/-- Claim C8: a native tagged value whose tag is none of Tensor, Int,
Double, Bool or String makes `newJEValueFromEValue` fail with the
unsupported-EValue-type error carrying the numeric tag, and no managed
value is produced. -/
theorem unsupported_evalue_tag_fails (smap : Int → Option Int) (tag : Int) :
    newJEValueFromEValue smap (.other tag) =
      .error (.unsupportedEValueType tag) ∧
    ∀ j : JEValue, newJEValueFromEValue smap (.other tag) ≠ .ok j := by
  refine ⟨rfl, ?_⟩
  intro j h
  simp [newJEValueFromEValue] at h

/-- Claim C8 witness: the theorem applied at the empty mapping and tag 9. -/
theorem unsupported_evalue_tag_fails_witness :
    newJEValueFromEValue (fun _ => none) (.other 9) =
      .error (.unsupportedEValueType 9) :=
  (unsupported_evalue_tag_fails (fun _ => none) 9).1

/-- Claim C9: the claim says native→managed encoding composed with
managed→native decoding is the identity for supported scalar values.  It
is not: encoding native int 42 yields the managed Int object with payload
42, but decoding that object back (the `execute_method` loop) yields
native int 4, because the decoder reads the type-code field instead of
the payload; likewise bool false round-trips to bool true. -/
theorem codec_roundtrip_not_identity (smap dmap : Int → Option Int) :
    newJEValueFromEValue smap (.int 42) = .ok (jIntManaged 42) ∧
    convertInputs dmap [jIntManaged 42] = .ok [.int 4] ∧
    newJEValueFromEValue smap (.bool false) = .ok (jBoolManaged false) ∧
    convertInputs dmap [jBoolManaged false] = .ok [.bool true] ∧
    EValue.int 4 ≠ EValue.int 42 ∧
    EValue.bool true ≠ EValue.bool false := by
  refine ⟨rfl, ?_, rfl, ?_, by decide, by decide⟩ <;>
    norm_num [convertInputs, convertOne, jIntManaged, jBoolManaged,
      kTypeCodeTensor, kTypeCodeInt, kTypeCodeDouble, kTypeCodeBool]

/-- Claim C9 witness: the theorem applied at the empty mappings. -/
theorem codec_roundtrip_not_identity_witness :
    convertInputs (fun _ => none) [jIntManaged 42] = .ok [.int 4] :=
  (codec_roundtrip_not_identity (fun _ => none) (fun _ => none)).2.1

/-- Claim C10: a managed input of String kind (type code 2, one of the
five recognized kinds) is dropped by `execute_method`'s decoding loop
exactly like an unrecognized code — no branch handles code 2
(jni_layer.cpp:299-312) — with no error raised and the remaining inputs'
decoded values shifted into its place, preserving their order. -/
theorem string_inputs_silently_dropped (dmap : Int → Option Int)
    (xs ys : List JEValue) (v : JEValue)
    (h : v.mTypeCode = kTypeCodeString) :
    convertInputs dmap (xs ++ v :: ys) = convertInputs dmap (xs ++ ys) := by
  apply convertInputs_skip dmap xs ys
  apply convertOne_skip <;> rw [h] <;> decide

/-- Claim C10 witness: a String input between an Int and a Bool input is
dropped; the surrounding inputs decode as if it were absent. -/
theorem string_inputs_silently_dropped_witness :
    convertInputs exampleDtypeMap
        [jIntManaged 7, jStringManaged ("hello"), jBoolManaged true] =
      convertInputs exampleDtypeMap [jIntManaged 7, jBoolManaged true] :=
  string_inputs_silently_dropped exampleDtypeMap [jIntManaged 7]
    [jBoolManaged true] (jStringManaged ("hello")) rfl

end JniLayer
